import Mathlib

/-!
Verification of the MCP workshop protocol servers.

This file gives a shallow embedding of the protocol-relevant parts of the
repository's Python sources and proves the spec's testable properties over it:

* `Section_2_MCP/MCP_python_SDK/mcp_advanced_server.py` (and the identical
  fragments of `mcp_basic_server.py`): the resource producer `get_protein`,
  the tools `get_protein_function`, `find_protein`, `generate_hypothesis`,
  `submit_sampling_result` and `stream_analysis_log`.
* `Section_2_MCP/MCP_scratch/advanced_server.py` and
  `Section_2_MCP/MCP_scratch/basic_server.py`: the `handle_mcp` dispatchers.

JSON values built by the handlers (`json.dumps(...)` payloads and `jsonify`
bodies) are modelled by the inductive `J` below; a Python dict literal becomes
a `J.obj` with the fields in source order.  Python dictionaries used as maps
(`DB`, `pending_callbacks`) become association lists with unique keys, looked
up by `dictGet` (the embedding of `d.get(k)` / `k in d`).

The repository's `protein_db.json` files are not under `src/`; every theorem
therefore quantifies over an arbitrary database.  The record type `ProteinRec`
(resp. `ScratchRec`) carries exactly the fields the servers read:
`name`, `organism`, `function` and optionally `log`.
-/

namespace MCPWorkshop

/-- JSON values, the shape of every payload the servers build.  A Python dict
literal is embedded as `J.obj` with its fields in source order. -/
inductive J where
  | null
  | bool (b : Bool)
  | num (n : Int)
  | str (s : String)
  | arr (elems : List J)
  | obj (fields : List (String × J))

/-- Field lookup in a JSON object (`payload["k"]`); `none` off objects. -/
def J.getField : J → String → Option J
  | .obj fields, k => (fields.find? (fun p => p.1 == k)).map (fun p => p.2)
  | _, _ => none

/-- Association-list lookup: the embedding of Python's `d.get(k)` (so also of
`k in d`, which is `(dictGet d k).isSome`).  Dict keys are unique, hence the
first binding is the binding. -/
def dictGet {β : Type} (d : List (String × β)) (k : String) : Option β :=
  (d.find? (fun p => p.1 == k)).map (fun p => p.2)

/-- Python's `s.lower()` for the ASCII strings of this repository:
`Char.toLower` is exactly the basic-latin lowercase map. -/
def lowerStr (s : String) : String := String.mk (s.data.map Char.toLower)

/-- Python's `a in b` substring test on the underlying character lists:
`needle` occurs contiguously in the haystack. -/
def infixOfB (needle : List Char) : List Char → Bool
  | [] => needle.isPrefixOf []
  | c :: rest => needle.isPrefixOf (c :: rest) || infixOfB needle rest

/-- Auxiliary for `splitNl`: accumulates the current line (reversed). -/
def splitNlAux : List Char → List Char → List String
  | cur, [] => [String.mk cur.reverse]
  | cur, c :: cs =>
    if c = '\n' then String.mk cur.reverse :: splitNlAux [] cs
    else splitNlAux (c :: cur) cs

/-- Python's `s.split('\n')`: e.g. `"" ↦ [""]`, `"a\nb" ↦ ["a", "b"]`,
`"a\n" ↦ ["a", ""]`. -/
def splitNl (s : String) : List String := splitNlAux [] s.data

/-- The optional `log` field of a database record: the SDK server accepts both
a string (split on newlines) and a list of lines. -/
inductive LogVal where
  | strLog (s : String)
  | listLog (lines : List String)

/-- A record of the toy protein database, with exactly the fields the servers
read.  The servers treat a looked-up record as truthy (`if not record`), which
for the database's non-empty dict records is the same as presence. -/
structure ProteinRec where
  name : String
  organism : String
  function : String
  log : Option LogVal := none

/-!
## The SDK servers (`MCP_python_SDK/mcp_advanced_server.py`)

Tool handlers of the FastMCP server.  A handler that `raise`s becomes an
`Except.error` carrying the exception message.  The in-memory ledger
`pending_callbacks : dict[str, dict]` (each value a dict `{"protein_id": pid}`)
becomes a `List (String × String)` from token to protein id; handlers that
mutate it return the new ledger.  The fresh `uuid.uuid4()` token of
`generate_hypothesis` is passed in as an argument (its only relevant property
is freshness, which theorems state as a hypothesis).
-/

/-- The JSON fields of a database record (`{**record}` in `get_protein`). -/
def ProteinRec.toFields (r : ProteinRec) : List (String × J) :=
  [("name", J.str r.name), ("organism", J.str r.organism), ("function", J.str r.function)]
    ++ (match r.log with
        | none => []
        | some (.strLog s) => [("log", J.str s)]
        | some (.listLog lines) => [("log", J.arr (lines.map J.str))])

/-- Resource producer `get_protein` (`protein://{protein_id}`), identical in
`mcp_basic_server.py` (lines 50-59) and `mcp_advanced_server.py` (lines
39-46): returns a JSON payload and a media type, with an `error`-keyed body
for an unknown id instead of failing. -/
def get_protein (db : List (String × ProteinRec)) (protein_id : String) : J × String :=
  match dictGet db protein_id with
  | none =>
    (J.obj [("error", J.str ("Unknown protein_id: " ++ protein_id))], "application/json")
  | some record =>
    (J.obj (("id", J.str protein_id) :: record.toFields), "application/json")

/-- Tool `get_protein_function`, identical in both SDK servers: the plain
function string on success, `raise ValueError(...)` on an unknown id. -/
def get_protein_function (db : List (String × ProteinRec)) (protein_id : String) :
    Except String String :=
  match dictGet db protein_id with
  | none => .error ("Unknown protein_id: " ++ protein_id)
  | some r => .ok r.function

/-- One candidate of `find_protein`'s search loop: the entry
`{"id": protein_id, "name": data["name"]}` when the (already lowered) query
occurs in the lowercased `name` field. -/
def matchEntry (q : String) (p : String × ProteinRec) : Option J :=
  if infixOfB q.data (lowerStr p.2.name).data then
    some (J.obj [("id", J.str p.1), ("name", J.str p.2.name)])
  else none

/-- Body of tool `find_protein` after the initial
`protein_name = protein_name.lower()` reassignment; `q` is the lowered query.
Python's `if matches:` truthiness check becomes the match on the list. -/
def find_protein_lowered (db : List (String × ProteinRec)) (q : String) : J :=
  if q = "p53" then
    J.obj [("result_type", J.str "elicitation"),
           ("message", J.str "Multiple proteins match 'p53'. Please specify:"),
           ("choices", J.arr
             [J.obj [("label", J.str "Human p53"), ("value", J.str "P53_HUMAN")],
              J.obj [("label", J.str "Mouse p53"), ("value", J.str "P53_MOUSE")]])]
  else
    match db.filterMap (matchEntry q) with
    | [] =>
      J.obj [("result_type", J.str "error"),
             ("message", J.str ("No proteins found matching '" ++ q ++ "'"))]
    | m :: ms =>
      J.obj [("result_type", J.str "matches"), ("matches", J.arr (m :: ms))]

/-- Tool `find_protein` (SDK advanced server, lines 79-113): lowers its
argument, then runs the lowered search. -/
def find_protein (db : List (String × ProteinRec)) (protein_name : String) : J :=
  find_protein_lowered db (lowerStr protein_name)

/-- The sampling payload `generate_hypothesis` returns for record `r` and
fresh token `tok`. -/
def samplingPayload (r : ProteinRec) (tok : String) : J :=
  J.obj [("result_type", J.str "sampling"),
         ("prompt", J.str ("The protein " ++ r.name ++ " is known to " ++ r.function
           ++ ". Generate a novel research hypothesis.")),
         ("callback_token", J.str tok)]

/-- Tool `generate_hypothesis` (lines 116-135): on a known id it records the
fresh token in the pending-callback ledger and returns the sampling payload;
on an unknown id it raises.  Dict insertion is modelled by consing, which has
the same lookup behaviour. -/
def generate_hypothesis (db : List (String × ProteinRec)) (protein_id : String)
    (token : String) (pending : List (String × String)) :
    Except String (J × List (String × String)) :=
  match dictGet db protein_id with
  | none => .error ("Unknown protein_id: " ++ protein_id)
  | some info => .ok (samplingPayload info token, (token, protein_id) :: pending)

/-- The `sampling_complete` payload of a successful `submit_sampling_result`. -/
def samplingCompletePayload (protein_id llm_result : String) : J :=
  J.obj [("result_type", J.str "sampling_complete"),
         ("protein_id", J.str protein_id),
         ("llm_result", J.str llm_result),
         ("status", J.str "success")]

/-- Tool `submit_sampling_result` (lines 137-151): the raise happens before
any mutation, so on an unknown token the ledger comes back unchanged; on a
known token `pending_callbacks.pop` removes that one binding. -/
def submit_sampling_result (pending : List (String × String))
    (callback_token llm_result : String) :
    Except String J × List (String × String) :=
  match dictGet pending callback_token with
  | none => (.error "Invalid callback token", pending)
  | some protein_id =>
    (.ok (samplingCompletePayload protein_id llm_result),
     pending.eraseP (fun p => p.1 == callback_token))

/-- One `ctx.report_progress(progress=i, total=..., message=line)` call. -/
structure Progress where
  progress : Nat
  total : Nat
  message : String
deriving DecidableEq

/-- What `stream_analysis_log` puts on the wire, in order: progress
notifications during the loop, then the final return value. -/
inductive StreamItem where
  | progressEv (p : Progress)
  | finalRes (s : String)
deriving DecidableEq

/-- The progress notifications of the loop
`for i, line in enumerate(log_lines, 1)`: one event per line, sequence
number `i` starting from the given index, constant `total`. -/
def progressEvents (total : Nat) : Nat → List String → List Progress
  | _, [] => []
  | i, line :: rest => ⟨i, total, line⟩ :: progressEvents total (i + 1) rest

/-- The twelve default log lines of `stream_analysis_log` (used when the
record has no `log` field).  `protein_data.get('name', ...)` and
`.get('function', 'Unknown')` are the record's total fields. -/
def defaultLog (r : ProteinRec) : List String :=
  ["Starting analysis of " ++ r.name,
   "Loading sequence data...",
   "Analyzing domain structure...",
   "Predicting secondary structure...",
   "Identifying functional motifs...",
   "Comparing with homologs...",
   "Checking post-translational modifications...",
   "Validating structural predictions...",
   "Assessing stability...",
   "Evaluating interaction partners...",
   "Generating final report...",
   "Analysis complete. Function: " ++ r.function]

/-- The `log_lines` of `stream_analysis_log`: the record's `log` if present
(split when it is a string), else the twelve default steps. -/
def logLines (r : ProteinRec) : List String :=
  match r.log with
  | none => defaultLog r
  | some (.strLog s) => splitNl s
  | some (.listLog lines) => lines

/-- Tool `stream_analysis_log` (lines 154-199): raises on an unknown id;
otherwise emits one progress notification per log line (sequence numbers from
1, total the line count) and only then the final return value, the
newline-join of all lines.  The `ctx.info` log messages and the
`asyncio.sleep` pacing are not modelled. -/
def stream_analysis_log (db : List (String × ProteinRec)) (protein_id : String) :
    Except String (List StreamItem) :=
  match dictGet db protein_id with
  | none => .error ("Unknown protein_id: " ++ protein_id)
  | some r =>
    .ok ((progressEvents (logLines r).length 1 (logLines r)).map StreamItem.progressEv
      ++ [StreamItem.finalRes (String.intercalate "\n" (logLines r))])

/-!
## The from-scratch servers (`MCP_scratch/advanced_server.py`, `basic_server.py`)

Both files expose one Flask endpoint `handle_mcp`.  An incoming JSON body is
embedded as `ScratchReq α` (`α` the type of the caller-chosen `id`; a missing
field is `none`, matching `data.get(...)`).  `jsonify(...)` responses carrying
`"result"` or `"error"` become `RespEnvelope`; the streaming branch of the
advanced server returns a raw chunked response with no envelope, modelled by
`HandleResult.stream`.
-/

/-- The request fields the two dispatchers read.  `params` / `arguments`
default to `{}` via `.get(..., {})`, hence the `Option` wrappers plus the
`getD {}` accessors at use sites. -/
structure ScratchArgs where
  protein_name : Option String := none
  protein_id : Option String := none

/-- The `params` of a request: only `uri`, `name` and `arguments` are read. -/
structure ScratchParams where
  uri : Option String := none
  name : Option String := none
  arguments : Option ScratchArgs := none

/-- An incoming JSON-RPC envelope as the dispatchers see it. -/
structure ScratchReq (α : Type) where
  jsonrpc : Option String := none
  method : Option String := none
  id : Option α := none
  params : Option ScratchParams := none

/-- A JSON-RPC error object `{"code": ..., "message": ...}`. -/
structure ErrObj where
  code : Int
  message : String
deriving DecidableEq

/-- A `jsonify`'d response envelope: the echoed `id` and either a `result`
(`Except.ok`, with `result: None` as `J.null`) or an `error` object. -/
structure RespEnvelope (α : Type) where
  id : Option α
  body : Except ErrObj J

/-- One SSE chunk of `generate_stream`: the notification for line `line` at
0-based index `i` carries `progress = (i+1)/len(log_lines)`, kept here as the
exact pair (`num` = `i+1`, `den` = the line count) rather than a float, plus
the message. -/
structure ScratchChunk where
  num : Nat
  den : Nat
  message : String
deriving DecidableEq

/-- What `handle_mcp` of the advanced scratch server can return: a JSON
envelope, or — only from the `analyze_protein_stream` success branch — a raw
chunked `Response` of progress notifications with no envelope at all. -/
inductive HandleResult (α : Type) where
  | envelope (e : RespEnvelope α)
  | stream (chunks : List ScratchChunk)

/-- The loop of `generate_stream` over `enumerate(log_lines)` (0-based `i`):
a line whose `strip()` is empty (all whitespace) is skipped, any other line
yields its chunk. -/
def scratchChunks (den : Nat) : Nat → List String → List ScratchChunk
  | _, [] => []
  | i, line :: rest =>
    if line.data.all (fun c => c.isWhitespace) then scratchChunks den (i + 1) rest
    else ⟨i + 1, den, line⟩ :: scratchChunks den (i + 1) rest

/-- Streaming generator `generate_stream` of `advanced_server.py` (lines 199-218), applied to
`protein.get('log', '')`: splits on newlines and streams one chunk per
non-blank line.  There is no final result after the chunks. -/
def generate_stream (log : String) : List ScratchChunk :=
  scratchChunks (splitNl log).length 0 (splitNl log)

/-- A record of the scratch servers' database; `log`, read via
`protein.get('log', '')`, is an optional string. -/
structure ScratchRec where
  name : String
  organism : String
  function : String
  log : Option String := none

/-- Python's `f"...{x}..."` applied to an optional string: `str(None)` is
`"None"`. -/
def optStr : Option String → String
  | some s => s
  | none => "None"

/-- Success envelope body helper: `{"content": [{"type": "text", "text": t}]}`. -/
def contentText (t : String) : J :=
  J.obj [("content", J.arr [J.obj [("type", J.str "text"), ("text", J.str t)]])]

/-- The JSON rendering of the scratch database (`json.dumps(protein_db)`); the
source embeds the dump string, modelled here as the structured value. -/
def scratchDbJson (db : List (String × ScratchRec)) : J :=
  J.obj (db.map (fun p =>
    (p.1, J.obj ([("name", J.str p.2.name), ("organism", J.str p.2.organism),
                  ("function", J.str p.2.function)]
      ++ (match p.2.log with
          | none => []
          | some s => [("log", J.str s)])))))

namespace ScratchAdvanced

/-- The `initialize` result of the advanced scratch server. -/
def initializeResult : J :=
  J.obj [("protocolVersion", J.str "2024-11-05"),
         ("capabilities", J.obj
           [("resources", J.obj [("listChanged", J.bool true)]),
            ("tools", J.obj []),
            ("logging", J.obj []),
            ("prompts", J.obj [])]),
         ("serverInfo", J.obj
           [("name", J.str "Advanced Protein MCP Server"),
            ("version", J.str "1.0.0")])]

/-- The `resources/list` result. -/
def resourcesList : J :=
  J.obj [("resources", J.arr
    [J.obj [("uri", J.str "protein://proteins"),
            ("name", J.str "Protein Database"),
            ("description", J.str "Sample protein data with streaming capability"),
            ("mimeType", J.str "application/json")]])]

/-- The `resources/read` result for `protein://proteins`. -/
def readResult (db : List (String × ScratchRec)) : J :=
  J.obj [("contents", J.arr
    [J.obj [("uri", J.str "protein://proteins"),
            ("mimeType", J.str "application/json"),
            ("value", scratchDbJson db)]])]

/-- The static `tools/list` result. -/
def toolsList : J :=
  J.obj [("tools", J.arr
    [J.obj [("name", J.str "find_protein"),
            ("description", J.str "Find protein by name with disambiguation"),
            ("inputSchema", J.obj
              [("type", J.str "object"),
               ("properties", J.obj
                 [("protein_name", J.obj
                   [("type", J.str "string"),
                    ("description", J.str "Protein name to search for")])]),
               ("required", J.arr [J.str "protein_name"])])],
     J.obj [("name", J.str "analyze_protein_stream"),
            ("description", J.str "Stream protein analysis in real-time"),
            ("inputSchema", J.obj
              [("type", J.str "object"),
               ("properties", J.obj
                 [("protein_id", J.obj
                   [("type", J.str "string"),
                    ("description", J.str "Protein ID to analyze")])]),
               ("required", J.arr [J.str "protein_id"])])],
     J.obj [("name", J.str "get_protein_hypothesis"),
            ("description", J.str "Generate research hypothesis for a protein"),
            ("inputSchema", J.obj
              [("type", J.str "object"),
               ("properties", J.obj
                 [("protein_id", J.obj
                   [("type", J.str "string"),
                    ("description", J.str "Protein ID")])]),
               ("required", J.arr [J.str "protein_id"])])]])]

/-- The `prompts/list` result. -/
def promptsList : J :=
  J.obj [("prompts", J.arr
    [J.obj [("name", J.str "protein_analysis"),
            ("description", J.str "Generate comprehensive protein analysis"),
            ("arguments", J.arr
              [J.obj [("name", J.str "protein_id"),
                      ("description", J.str "ID of the protein to analyze"),
                      ("required", J.bool true)]])]])]

/-- The `prompts/get` result for a found protein. -/
def promptResult (p : ScratchRec) : J :=
  J.obj [("description", J.str ("Analysis of " ++ p.name)),
         ("messages", J.arr
           [J.obj [("role", J.str "user"),
                   ("content", J.obj
                     [("type", J.str "text"),
                      ("text", J.str ("Analyze this protein and provide insights:\n\nName: "
                        ++ p.name ++ "\nOrganism: " ++ p.organism
                        ++ "\nFunction: " ++ p.function))])]])]

/-- The `find_protein` branch after `arguments.get('protein_name', '').lower()`;
`q` is the lowered query.  The hard-coded p53 disambiguation, then the search
over names/organisms, then the `-32602` miss. -/
def find_protein_lowered (db : List (String × ScratchRec)) (q : String) : Except ErrObj J :=
  if q = "p53" then
    .ok (J.obj [("content", J.arr
      [J.obj [("type", J.str "text"),
              ("text", J.str "Multiple proteins match 'p53'. Please specify:\n- P53_HUMAN (Human p53)\n- P53_MOUSE (Mouse p53)")]]),
      ("isError", J.bool false)])
  else
    match db.filterMap (fun p =>
      if infixOfB q.data (lowerStr p.2.name).data then
        some (p.1 ++ ": " ++ p.2.name ++ " (" ++ p.2.organism ++ ")")
      else none) with
    | [] => .error ⟨-32602, "No proteins found"⟩
    | m :: ms =>
      .ok (contentText ("Found " ++ toString (m :: ms).length ++ " proteins:\n"
        ++ String.intercalate "\n" ((m :: ms).map (fun x => "- " ++ x))))

/-- The `find_protein` tool branch of `handle_mcp` (lines 146-184): lowers the
argument and dispatches on the lowered query. -/
def find_protein (db : List (String × ScratchRec)) (protein_name : String) : Except ErrObj J :=
  find_protein_lowered db (lowerStr protein_name)

/-- The `tools/call` branch of `handle_mcp` (lines 141-251). -/
def toolsCall (db : List (String × ScratchRec)) (rid : Option α) (params : ScratchParams) :
    HandleResult α :=
  let args := params.arguments.getD {}
  if params.name = some "find_protein" then
    .envelope ⟨rid, find_protein db (args.protein_name.getD "")⟩
  else if params.name = some "analyze_protein_stream" then
    match args.protein_id with
    | none => .envelope ⟨rid, .error ⟨-32602, "Protein not found"⟩⟩
    | some pid =>
      match dictGet db pid with
      | none => .envelope ⟨rid, .error ⟨-32602, "Protein not found"⟩⟩
      | some protein => .stream (generate_stream (protein.log.getD ""))
  else if params.name = some "get_protein_hypothesis" then
    match args.protein_id with
    | none => .envelope ⟨rid, .error ⟨-32602, "Protein not found"⟩⟩
    | some pid =>
      match dictGet db pid with
      | none => .envelope ⟨rid, .error ⟨-32602, "Protein not found"⟩⟩
      | some protein_info =>
        .envelope ⟨rid, .ok (contentText
          ("PROMPT FOR LLM: Based on this protein information, generate a novel research hypothesis.\n\nProtein: "
            ++ protein_info.name ++ "\nOrganism: " ++ protein_info.organism
            ++ "\nFunction: " ++ protein_info.function ++ "\n\nHypothesis:"))⟩
  else
    .envelope ⟨rid, .error ⟨-32601, "Tool not found"⟩⟩

/-- Dispatcher `handle_mcp` of `advanced_server.py` (lines 24-314).  A body whose
`jsonrpc` is not `"2.0"` is rejected with `-32600` and `id: None` regardless
of the request's id; every other `jsonify` branch echoes `data.get('id')`. -/
def handle_mcp (db : List (String × ScratchRec)) (req : ScratchReq α) : HandleResult α :=
  if req.jsonrpc ≠ some "2.0" then
    .envelope ⟨none, .error ⟨-32600, "Invalid Request"⟩⟩
  else
    let params := req.params.getD {}
    let rid := req.id
    if req.method = some "initialize" then
      .envelope ⟨rid, .ok initializeResult⟩
    else if req.method = some "resources/list" then
      .envelope ⟨rid, .ok resourcesList⟩
    else if req.method = some "resources/read" then
      if params.uri = some "protein://proteins" then
        .envelope ⟨rid, .ok (readResult db)⟩
      else
        .envelope ⟨rid, .error ⟨-32601, "Resource not found"⟩⟩
    else if req.method = some "tools/list" then
      .envelope ⟨rid, .ok toolsList⟩
    else if req.method = some "tools/call" then
      toolsCall db rid params
    else if req.method = some "prompts/list" then
      .envelope ⟨rid, .ok promptsList⟩
    else if req.method = some "prompts/get" then
      if params.name = some "protein_analysis" then
        match (params.arguments.getD {}).protein_id with
        | none => .envelope ⟨rid, .error ⟨-32601, "Prompt not found"⟩⟩
        | some pid =>
          match dictGet db pid with
          | none => .envelope ⟨rid, .error ⟨-32601, "Prompt not found"⟩⟩
          | some protein => .envelope ⟨rid, .ok (promptResult protein)⟩
      else
        .envelope ⟨rid, .error ⟨-32601, "Prompt not found"⟩⟩
    else if req.method = some "notifications/initialized" then
      .envelope ⟨rid, .ok J.null⟩
    else
      .envelope ⟨rid, .error ⟨-32601, "Method not found"⟩⟩

/-- The method names `handle_mcp` dispatches on. -/
def knownMethods : List String :=
  ["initialize", "resources/list", "resources/read", "tools/list", "tools/call",
   "prompts/list", "prompts/get", "notifications/initialized"]

end ScratchAdvanced

namespace ScratchBasic

/-- The `initialize` result of the basic scratch server. -/
def initializeResult : J :=
  J.obj [("protocolVersion", J.str "2024-11-05"),
         ("capabilities", J.obj
           [("resources", J.obj []), ("tools", J.obj []), ("logging", J.obj [])]),
         ("serverInfo", J.obj
           [("name", J.str "Protein MCP Server"), ("version", J.str "1.0.0")])]

/-- The `resources/list` result. -/
def resourcesList : J :=
  J.obj [("resources", J.arr
    [J.obj [("uri", J.str "protein://proteins"),
            ("name", J.str "Protein Database"),
            ("description", J.str "Sample protein data"),
            ("mimeType", J.str "application/json")]])]

/-- The `resources/read` result for `protein://proteins`. -/
def readResult (db : List (String × ScratchRec)) : J :=
  J.obj [("contents", J.arr
    [J.obj [("uri", J.str "protein://proteins"),
            ("mimeType", J.str "application/json"),
            ("value", scratchDbJson db)]])]

/-- The static `tools/list` result. -/
def toolsList : J :=
  J.obj [("tools", J.arr
    [J.obj [("name", J.str "get_protein_function"),
            ("description", J.str "Get protein function by ID"),
            ("inputSchema", J.obj
              [("type", J.str "object"),
               ("properties", J.obj
                 [("protein_id", J.obj
                   [("type", J.str "string"),
                    ("description", J.str "Protein ID (e.g., P53_HUMAN)")])]),
               ("required", J.arr [J.str "protein_id"])])]])]

/-- Dispatcher `handle_mcp` of `basic_server.py` (lines 9-140): every branch is a JSON
envelope; the one tool is `get_protein_function`, answering the function text
for a known id and a `-32602` error (whose message interpolates the possibly
missing `protein_id`) otherwise. -/
def handle_mcp (db : List (String × ScratchRec)) (req : ScratchReq α) : RespEnvelope α :=
  if req.jsonrpc ≠ some "2.0" then
    ⟨none, .error ⟨-32600, "Invalid Request"⟩⟩
  else
    let params := req.params.getD {}
    let rid := req.id
    if req.method = some "initialize" then
      ⟨rid, .ok initializeResult⟩
    else if req.method = some "resources/list" then
      ⟨rid, .ok resourcesList⟩
    else if req.method = some "resources/read" then
      if params.uri = some "protein://proteins" then
        ⟨rid, .ok (readResult db)⟩
      else
        ⟨rid, .error ⟨-32601, "Resource not found"⟩⟩
    else if req.method = some "tools/list" then
      ⟨rid, .ok toolsList⟩
    else if req.method = some "tools/call" then
      let args := params.arguments.getD {}
      if params.name = some "get_protein_function" then
        match args.protein_id.bind (dictGet db) with
        | some r =>
          ⟨rid, .ok (contentText ("Function of " ++ optStr args.protein_id ++ ": "
            ++ r.function))⟩
        | none =>
          ⟨rid, .error ⟨-32602, "Protein " ++ optStr args.protein_id ++ " not found"⟩⟩
      else
        ⟨rid, .error ⟨-32601, "Tool not found"⟩⟩
    else if req.method = some "notifications/initialized" then
      ⟨rid, .ok J.null⟩
    else
      ⟨rid, .error ⟨-32601, "Method not found"⟩⟩

/-- The method names `handle_mcp` dispatches on. -/
def knownMethods : List String :=
  ["initialize", "resources/list", "resources/read", "tools/list", "tools/call",
   "notifications/initialized"]

end ScratchBasic

/-!
## Helper lemmas
-/

/-- Decoding `Char.ofNat` of a scalar below the surrogate range recovers it. -/
theorem toNat_ofNat_lt (n : Nat) (h : n < 55296) : (Char.ofNat n).toNat = n := by
  rw [Char.ofNat, dif_pos (Or.inl h)]
  rfl

/-- ASCII lowering is idempotent on characters. -/
theorem toLower_idem (c : Char) : c.toLower.toLower = c.toLower := by
  unfold Char.toLower
  by_cases h : c.toNat ≥ 65 ∧ c.toNat ≤ 90
  · rw [if_pos h]
    have ht : (Char.ofNat (c.toNat + 32)).toNat = c.toNat + 32 :=
      toNat_ofNat_lt _ (by omega)
    rw [if_neg (by rw [ht]; omega)]
  · rw [if_neg h, if_neg h]

/-- Lowering via `lowerStr` is idempotent. -/
theorem lowerStr_idem (s : String) : lowerStr (lowerStr s) = lowerStr s := by
  show String.mk ((s.data.map Char.toLower).map Char.toLower) = String.mk (s.data.map Char.toLower)
  rw [List.map_map]
  congr 1
  exact List.map_congr_left (fun c _ => toLower_idem c)

/-- A key that heads no binding looks up to nothing. -/
theorem dictGet_eq_none_of_not_mem {β : Type} (d : List (String × β)) (k : String)
    (h : k ∉ d.map Prod.fst) : dictGet d k = none := by
  induction d with
  | nil => rfl
  | cons p rest ih =>
    simp only [List.map_cons, List.mem_cons, not_or] at h
    simp only [dictGet, List.find?_cons]
    rw [show (p.1 == k) = false by simp [Ne.symm h.1]]
    exact ih h.2

/-- Head-positive lookup. -/
theorem dictGet_cons_self {β : Type} (d : List (String × β)) (k : String) (v : β) :
    dictGet ((k, v) :: d) k = some v := by
  simp [dictGet, List.find?_cons]

/-- Lookup skips a non-matching head. -/
theorem dictGet_cons_ne {β : Type} (d : List (String × β)) (k k' : String) (v : β)
    (h : k ≠ k') : dictGet ((k, v) :: d) k' = dictGet d k' := by
  simp only [dictGet, List.find?_cons]
  rw [show (k == k') = false by simp [h]]

/-- Removing the binding of `tok` leaves every other key's lookup unchanged. -/
theorem dictGet_eraseP_ne {β : Type} (d : List (String × β)) (tok t : String)
    (h : t ≠ tok) : dictGet (d.eraseP (fun p => p.1 == tok)) t = dictGet d t := by
  induction d with
  | nil => rfl
  | cons p rest ih =>
    by_cases hp : p.1 = tok
    · rw [List.eraseP_cons_of_pos (by simp [hp])]
      obtain ⟨k, v⟩ := p
      simp only at hp
      rw [dictGet_cons_ne rest k t v (by rw [hp]; exact fun e => h e.symm)]
    · rw [List.eraseP_cons_of_neg (by simp [hp])]
      obtain ⟨k, v⟩ := p
      simp only at hp
      by_cases hk : k = t
      · subst hk
        rw [dictGet_cons_self, dictGet_cons_self]
      · rw [dictGet_cons_ne _ k t v hk, dictGet_cons_ne _ k t v hk]
        exact ih

/-- With unique keys (a Python dict), removing `tok`'s binding removes the
key entirely. -/
theorem dictGet_eraseP_self {β : Type} (d : List (String × β)) (tok : String)
    (h : (d.map Prod.fst).Nodup) :
    dictGet (d.eraseP (fun p => p.1 == tok)) tok = none := by
  induction d with
  | nil => rfl
  | cons p rest ih =>
    simp only [List.map_cons, List.nodup_cons] at h
    by_cases hp : p.1 = tok
    · rw [List.eraseP_cons_of_pos (by simp [hp])]
      exact dictGet_eq_none_of_not_mem rest tok (hp ▸ h.1)
    · rw [List.eraseP_cons_of_neg (by simp [hp])]
      obtain ⟨k, v⟩ := p
      simp only at hp
      rw [dictGet_cons_ne _ k tok v hp]
      exact ih h.2

/-- The loop body count: one progress event per line. -/
theorem progressEvents_length (t : Nat) (i : Nat) (l : List String) :
    (progressEvents t i l).length = l.length := by
  induction l generalizing i with
  | nil => rfl
  | cons x xs ih => simp [progressEvents, ih]

/-- The sequence numbers emitted from start index `i` are exactly
`i, i+1, ..., i + len - 1`. -/
theorem progressEvents_map_progress (t : Nat) (i : Nat) (l : List String) :
    (progressEvents t i l).map Progress.progress = List.range' i l.length := by
  induction l generalizing i with
  | nil => rfl
  | cons x xs ih => simp [progressEvents, List.range', ih]

/-- Every emitted event carries the same total. -/
theorem progressEvents_total (t : Nat) (i : Nat) (l : List String) :
    ∀ e ∈ progressEvents t i l, e.total = t := by
  induction l generalizing i with
  | nil => intro e he; cases he
  | cons x xs ih =>
    intro e he
    simp only [progressEvents, List.mem_cons] at he
    rcases he with rfl | he
    · rfl
    · exact ih (i + 1) e he

/-- The messages emitted are the lines, in order. -/
theorem progressEvents_map_message (t : Nat) (i : Nat) (l : List String) :
    (progressEvents t i l).map Progress.message = l := by
  induction l generalizing i with
  | nil => rfl
  | cons x xs ih => simp [progressEvents, ih]

/-!
## The claims
-/

/-- Claim C1: a sampling handshake succeeds exactly once.  After
`generate_hypothesis` stores a fresh token for a known protein, the first
`submit_sampling_result` with that token returns the `sampling_complete` /
`success` payload carrying the protein id that opened the token, and a second
submission of the same token fails with the ledger's invalid-token error. -/
theorem claim_C1 (db : List (String × ProteinRec)) (pid : String) (r : ProteinRec)
    (st : List (String × String)) (tok llm llm2 : String)
    (hdb : dictGet db pid = some r) (hfresh : dictGet st tok = none) :
    generate_hypothesis db pid tok st = .ok (samplingPayload r tok, (tok, pid) :: st)
    ∧ (submit_sampling_result ((tok, pid) :: st) tok llm).1
        = .ok (samplingCompletePayload pid llm)
    ∧ (submit_sampling_result ((tok, pid) :: st) tok llm).2 = st
    ∧ (submit_sampling_result ((submit_sampling_result ((tok, pid) :: st) tok llm).2) tok llm2).1
        = .error "Invalid callback token" := by
  have h1 : dictGet ((tok, pid) :: st) tok = some pid := dictGet_cons_self st tok pid
  have h2 : ((tok, pid) :: st).eraseP (fun p => p.1 == tok) = st :=
    List.eraseP_cons_of_pos (by simp)
  refine ⟨?_, ?_, ?_, ?_⟩
  · simp [generate_hypothesis, hdb]
  · simp [submit_sampling_result, h1]
  · simp [submit_sampling_result, h1, h2]
  · simp [submit_sampling_result, h1, h2, hfresh]

/-- A sample database entry for the witnesses, consistent with the spec's
P53_HUMAN scenarios (the repository's `protein_db.json` is not under `src/`). -/
def p53Rec : ProteinRec :=
  { name := "Cellular tumor antigen p53", organism := "Homo sapiens",
    function := "acts as a tumor suppressor" }

/-- A one-entry sample database for the witnesses. -/
def dbW : List (String × ProteinRec) := [("P53_HUMAN", p53Rec)]

/-- Witness for C1 at a concrete database, ledger and token. -/
theorem claim_C1_witness :
    generate_hypothesis dbW "P53_HUMAN" "tok-1" []
      = .ok (samplingPayload p53Rec "tok-1", [("tok-1", "P53_HUMAN")])
    ∧ (submit_sampling_result [("tok-1", "P53_HUMAN")] "tok-1" "A hypothesis.").1
        = .ok (samplingCompletePayload "P53_HUMAN" "A hypothesis.")
    ∧ (submit_sampling_result [("tok-1", "P53_HUMAN")] "tok-1" "A hypothesis.").2 = []
    ∧ (submit_sampling_result
        (submit_sampling_result [("tok-1", "P53_HUMAN")] "tok-1" "A hypothesis.").2
        "tok-1" "Another.").1
        = .error "Invalid callback token" :=
  claim_C1 dbW "P53_HUMAN" p53Rec [] "tok-1" "A hypothesis." "Another." rfl rfl

/-- Claim C8: `submit_sampling_result` touches the ledger only at the
submitted token.  With unique keys (a Python dict), a present token's binding
is removed and every other key reads as before; an absent token fails and
returns the ledger unchanged. -/
theorem claim_C8 (st : List (String × String)) (tok llm : String)
    (hnd : (st.map Prod.fst).Nodup) :
    (∀ pid, dictGet st tok = some pid →
      (submit_sampling_result st tok llm).1 = .ok (samplingCompletePayload pid llm)
      ∧ (submit_sampling_result st tok llm).2 = st.eraseP (fun p => p.1 == tok)
      ∧ dictGet (submit_sampling_result st tok llm).2 tok = none
      ∧ ∀ t, t ≠ tok → dictGet (submit_sampling_result st tok llm).2 t = dictGet st t)
    ∧ (dictGet st tok = none →
        submit_sampling_result st tok llm = (.error "Invalid callback token", st)) := by
  constructor
  · intro pid hp
    refine ⟨?_, ?_, ?_, ?_⟩
    · simp [submit_sampling_result, hp]
    · simp [submit_sampling_result, hp]
    · simp only [submit_sampling_result, hp]
      exact dictGet_eraseP_self st tok hnd
    · intro t ht
      simp only [submit_sampling_result, hp]
      exact dictGet_eraseP_ne st tok t ht
  · intro hp
    simp [submit_sampling_result, hp]

/-- Witness for C8 on a two-entry ledger: consuming token `a` removes only
that binding (`b` still reads), and an absent token `z` fails atomically. -/
theorem claim_C8_witness :
    (submit_sampling_result [("a", "P1"), ("b", "P2")] "a" "x").1
        = .ok (samplingCompletePayload "P1" "x")
    ∧ (submit_sampling_result [("a", "P1"), ("b", "P2")] "a" "x").2
        = ([("a", "P1"), ("b", "P2")] : List (String × String)).eraseP (fun p => p.1 == "a")
    ∧ dictGet (submit_sampling_result [("a", "P1"), ("b", "P2")] "a" "x").2 "a" = none
    ∧ dictGet (submit_sampling_result [("a", "P1"), ("b", "P2")] "a" "x").2 "b"
        = dictGet [("a", "P1"), ("b", "P2")] "b"
    ∧ submit_sampling_result [("a", "P1"), ("b", "P2")] "z" "x"
        = (.error "Invalid callback token", [("a", "P1"), ("b", "P2")]) := by
  have h := claim_C8 [("a", "P1"), ("b", "P2")] "a" "x" (by decide)
  have h2 := claim_C8 [("a", "P1"), ("b", "P2")] "z" "x" (by decide)
  have hs := h.1 "P1" rfl
  exact ⟨hs.1, hs.2.1, hs.2.2.1, hs.2.2.2 "b" (by decide), h2.2 rfl⟩

/-- Claim C9: the `protein://{protein_id}` producer is total — it always
returns an `application/json` payload, and for an id absent from the database
the body is a JSON object with an `"error"` key instead of a failure. -/
theorem claim_C9 (db : List (String × ProteinRec)) (pid : String) :
    (get_protein db pid).2 = "application/json"
    ∧ (dictGet db pid = none →
        (get_protein db pid).1 = J.obj [("error", J.str ("Unknown protein_id: " ++ pid))]
        ∧ (get_protein db pid).1.getField "error"
            = some (J.str ("Unknown protein_id: " ++ pid))) := by
  constructor
  · unfold get_protein
    cases dictGet db pid <;> rfl
  · intro h
    have hb : (get_protein db pid).1
        = J.obj [("error", J.str ("Unknown protein_id: " ++ pid))] := by
      simp [get_protein, h]
    refine ⟨hb, ?_⟩
    rw [hb]
    rfl

/-- Witness for C9 at the empty database and an unknown id. -/
theorem claim_C9_witness :
    (get_protein [] "NOPE").2 = "application/json"
    ∧ (get_protein [] "NOPE").1 = J.obj [("error", J.str "Unknown protein_id: NOPE")]
    ∧ (get_protein [] "NOPE").1.getField "error" = some (J.str "Unknown protein_id: NOPE") := by
  have h := claim_C9 [] "NOPE"
  have h2 := h.2 rfl
  exact ⟨h.1, h2.1, h2.2⟩

/-- Claim C10: both `find_protein` implementations are case-insensitive in
their argument — the result on `s` equals the result on the lowered `s`,
because each lowers the query (and the stored names) before comparing. -/
theorem claim_C10 :
    (∀ (db : List (String × ProteinRec)) (s : String),
      find_protein db s = find_protein db (lowerStr s))
    ∧ (∀ (db : List (String × ScratchRec)) (s : String),
      ScratchAdvanced.find_protein db s = ScratchAdvanced.find_protein db (lowerStr s)) := by
  constructor
  · intro db s
    unfold find_protein
    rw [lowerStr_idem]
  · intro db s
    unfold ScratchAdvanced.find_protein
    rw [lowerStr_idem]

/-- Claim C5: the three-way case split of the SDK `find_protein`.  The query
`"p53"` always yields the elicitation payload with exactly the two hard-coded
choices; a non-`"p53"` query occurring (case-insensitively) in at least one
stored name yields a non-empty `matches` payload; a query matching no stored
name yields the not-found-shaped `result_type: error` payload. -/
theorem claim_C5 :
    (∀ db : List (String × ProteinRec),
      find_protein db "p53" = J.obj
        [("result_type", J.str "elicitation"),
         ("message", J.str "Multiple proteins match 'p53'. Please specify:"),
         ("choices", J.arr
           [J.obj [("label", J.str "Human p53"), ("value", J.str "P53_HUMAN")],
            J.obj [("label", J.str "Mouse p53"), ("value", J.str "P53_MOUSE")]])])
    ∧ (∀ (db : List (String × ProteinRec)) (s : String),
        lowerStr s ≠ "p53" →
        (∃ p ∈ db, infixOfB (lowerStr s).data (lowerStr p.2.name).data = true) →
        ∃ ms : List J, ms ≠ []
          ∧ find_protein db s
              = J.obj [("result_type", J.str "matches"), ("matches", J.arr ms)])
    ∧ (∀ (db : List (String × ProteinRec)) (s : String),
        lowerStr s ≠ "p53" →
        (∀ p ∈ db, infixOfB (lowerStr s).data (lowerStr p.2.name).data = false) →
        find_protein db s = J.obj
          [("result_type", J.str "error"),
           ("message", J.str ("No proteins found matching '" ++ lowerStr s ++ "'"))]) := by
  refine ⟨fun db => rfl, ?_, ?_⟩
  · intro db s hne hex
    have hfm : db.filterMap (matchEntry (lowerStr s)) ≠ [] := by
      rw [Ne, List.filterMap_eq_nil_iff]
      intro hall
      obtain ⟨p, hp, hinf⟩ := hex
      have := hall p hp
      simp [matchEntry, hinf] at this
    cases hcase : db.filterMap (matchEntry (lowerStr s)) with
    | nil => exact absurd hcase hfm
    | cons m ms =>
      refine ⟨m :: ms, by simp, ?_⟩
      unfold find_protein find_protein_lowered
      rw [if_neg hne, hcase]
  · intro db s hne hall
    have hfm : db.filterMap (matchEntry (lowerStr s)) = [] := by
      rw [List.filterMap_eq_nil_iff]
      intro p hp
      simp [matchEntry, hall p hp]
    unfold find_protein find_protein_lowered
    rw [if_neg hne, hfm]

/-- Witness for C5 on the sample database: `"p53"` elicites two choices,
`"TUMOR"` (a case-insensitive substring of the stored name) matches, and
`"ZZZ"` yields the error payload. -/
theorem claim_C5_witness :
    find_protein dbW "p53" = J.obj
      [("result_type", J.str "elicitation"),
       ("message", J.str "Multiple proteins match 'p53'. Please specify:"),
       ("choices", J.arr
         [J.obj [("label", J.str "Human p53"), ("value", J.str "P53_HUMAN")],
          J.obj [("label", J.str "Mouse p53"), ("value", J.str "P53_MOUSE")]])]
    ∧ (∃ ms : List J, ms ≠ []
        ∧ find_protein dbW "TUMOR"
            = J.obj [("result_type", J.str "matches"), ("matches", J.arr ms)])
    ∧ find_protein dbW "ZZZ" = J.obj
        [("result_type", J.str "error"),
         ("message", J.str ("No proteins found matching '" ++ lowerStr "ZZZ" ++ "'"))] :=
  ⟨claim_C5.1 dbW,
   claim_C5.2.1 dbW "TUMOR" (by decide) (by decide),
   claim_C5.2.2 dbW "ZZZ" (by decide) (by decide)⟩

/-- The sample database entry of the scratch servers' witnesses. -/
def scratchP53Rec : ScratchRec :=
  { name := "Cellular tumor antigen p53", organism := "Homo sapiens",
    function := "acts as a tumor suppressor" }

/-- A one-entry sample database for the scratch servers' witnesses. -/
def dbWScratch : List (String × ScratchRec) := [("P53_HUMAN", scratchP53Rec)]

/-- A well-formed `tools/call` request for `get_protein_function`. -/
def reqGPF (pid : String) : ScratchReq Nat :=
  { jsonrpc := some "2.0", method := some "tools/call", id := some 3,
    params := some { name := some "get_protein_function",
                     arguments := some { protein_id := some pid } } }

/-- Claim C7: `get_protein_function` on a known id returns the plain function
string (no `result_type` field — the SDK handler's type is a bare string, and
the scratch server wraps it as plain text content); an unknown id raises in
the SDK handler and yields the `-32602` domain error in the scratch basic
server. -/
theorem claim_C7 :
    (∀ (db : List (String × ProteinRec)) (pid : String) (r : ProteinRec),
      dictGet db pid = some r → get_protein_function db pid = .ok r.function)
    ∧ (∀ (db : List (String × ProteinRec)) (pid : String),
      dictGet db pid = none →
      get_protein_function db pid = .error ("Unknown protein_id: " ++ pid))
    ∧ (∀ (α : Type) (db : List (String × ScratchRec)) (req : ScratchReq α)
        (pid : String) (r : ScratchRec),
      req.jsonrpc = some "2.0" → req.method = some "tools/call" →
      (req.params.getD {}).name = some "get_protein_function" →
      ((req.params.getD {}).arguments.getD {}).protein_id = some pid →
      dictGet db pid = some r →
      ScratchBasic.handle_mcp db req
        = ⟨req.id, .ok (contentText ("Function of " ++ pid ++ ": " ++ r.function))⟩)
    ∧ (∀ (α : Type) (db : List (String × ScratchRec)) (req : ScratchReq α) (pid : String),
      req.jsonrpc = some "2.0" → req.method = some "tools/call" →
      (req.params.getD {}).name = some "get_protein_function" →
      ((req.params.getD {}).arguments.getD {}).protein_id = some pid →
      dictGet db pid = none →
      ScratchBasic.handle_mcp db req
        = ⟨req.id, .error ⟨-32602, "Protein " ++ pid ++ " not found"⟩⟩) := by
  refine ⟨?_, ?_, ?_, ?_⟩
  · intro db pid r h
    simp [get_protein_function, h]
  · intro db pid h
    simp [get_protein_function, h]
  · intro α db req pid r hv hm hname harg hdb
    simp [ScratchBasic.handle_mcp, hv, hm, hname, harg, hdb, Option.bind, optStr]
  · intro α db req pid hv hm hname harg hdb
    simp [ScratchBasic.handle_mcp, hv, hm, hname, harg, hdb, Option.bind, optStr]

/-- Witness for C7: the P53_HUMAN scenario on the sample databases, for both
the SDK handler and the scratch basic dispatcher. -/
theorem claim_C7_witness :
    get_protein_function dbW "P53_HUMAN" = .ok "acts as a tumor suppressor"
    ∧ get_protein_function dbW "NOPE" = .error "Unknown protein_id: NOPE"
    ∧ ScratchBasic.handle_mcp dbWScratch (reqGPF "P53_HUMAN")
        = ⟨some 3, .ok (contentText "Function of P53_HUMAN: acts as a tumor suppressor")⟩
    ∧ ScratchBasic.handle_mcp dbWScratch (reqGPF "NOPE")
        = ⟨some 3, .error ⟨-32602, "Protein NOPE not found"⟩⟩ :=
  ⟨claim_C7.1 dbW "P53_HUMAN" p53Rec rfl,
   claim_C7.2.1 dbW "NOPE" rfl,
   claim_C7.2.2.1 Nat dbWScratch (reqGPF "P53_HUMAN") "P53_HUMAN" scratchP53Rec
     rfl rfl rfl rfl rfl,
   claim_C7.2.2.2 Nat dbWScratch (reqGPF "NOPE") "NOPE" rfl rfl rfl rfl rfl⟩

/-- Discriminator: did the advanced dispatcher answer with a JSON envelope? -/
def HandleResult.isEnvelope {α : Type} : HandleResult α → Bool
  | .envelope _ => true
  | .stream _ => false

/-- Helper: the advanced dispatcher's fall-through branch for a method name
outside its dispatch chain. -/
theorem advHandle_unknown (α : Type) (db : List (String × ScratchRec))
    (req : ScratchReq α) (m : String) (hv : req.jsonrpc = some "2.0")
    (hm : req.method = some m) (hnot : m ∉ ScratchAdvanced.knownMethods) :
    ScratchAdvanced.handle_mcp db req
      = .envelope ⟨req.id, .error ⟨-32601, "Method not found"⟩⟩ := by
  simp only [ScratchAdvanced.knownMethods, List.mem_cons, List.not_mem_nil, or_false,
    not_or] at hnot
  obtain ⟨n1, n2, n3, n4, n5, n6, n7, n8⟩ := hnot
  simp [ScratchAdvanced.handle_mcp, hv, hm, n1, n2, n3, n4, n5, n6, n7, n8]

/-- Helper: the basic dispatcher's fall-through branch for a method name
outside its dispatch chain. -/
theorem basicHandle_unknown (α : Type) (db : List (String × ScratchRec))
    (req : ScratchReq α) (m : String) (hv : req.jsonrpc = some "2.0")
    (hm : req.method = some m) (hnot : m ∉ ScratchBasic.knownMethods) :
    ScratchBasic.handle_mcp db req = ⟨req.id, .error ⟨-32601, "Method not found"⟩⟩ := by
  simp only [ScratchBasic.knownMethods, List.mem_cons, List.not_mem_nil, or_false,
    not_or] at hnot
  obtain ⟨n1, n2, n3, n4, n5, n6⟩ := hnot
  simp [ScratchBasic.handle_mcp, hv, hm, n1, n2, n3, n4, n5, n6]

/-- Claim C6: in both scratch dispatchers, a request with the supported
protocol version and a method name outside the dispatch chain always gets
exactly the `-32601` method-not-found error. -/
theorem claim_C6 :
    (∀ (α : Type) (db : List (String × ScratchRec)) (req : ScratchReq α) (m : String),
      req.jsonrpc = some "2.0" → req.method = some m →
      m ∉ ScratchAdvanced.knownMethods →
      ScratchAdvanced.handle_mcp db req
        = .envelope ⟨req.id, .error ⟨-32601, "Method not found"⟩⟩)
    ∧ (∀ (α : Type) (db : List (String × ScratchRec)) (req : ScratchReq α) (m : String),
      req.jsonrpc = some "2.0" → req.method = some m →
      m ∉ ScratchBasic.knownMethods →
      ScratchBasic.handle_mcp db req = ⟨req.id, .error ⟨-32601, "Method not found"⟩⟩) :=
  ⟨advHandle_unknown, basicHandle_unknown⟩

/-- An unknown-method request used by the C6 witness. -/
def reqBogus : ScratchReq Nat :=
  { jsonrpc := some "2.0", method := some "bogus/method", id := some 1 }

/-- Witness for C6 at a concrete unknown method. -/
theorem claim_C6_witness :
    ScratchAdvanced.handle_mcp ([] : List (String × ScratchRec)) reqBogus
      = .envelope ⟨some 1, .error ⟨-32601, "Method not found"⟩⟩
    ∧ ScratchBasic.handle_mcp ([] : List (String × ScratchRec)) reqBogus
      = ⟨some 1, .error ⟨-32601, "Method not found"⟩⟩ :=
  ⟨claim_C6.1 Nat [] reqBogus "bogus/method" rfl rfl (by decide),
   claim_C6.2 Nat [] reqBogus "bogus/method" rfl rfl (by decide)⟩

/-- Claim C2 (amended): for a request with the supported protocol version,
every branch of the advanced dispatcher that answers with a JSON envelope
echoes the request's id — the one branch that does not is
`analyze_protein_stream`'s success, which returns a raw progress stream with
no envelope (see the counterexample). -/
theorem claim_C2 (α : Type) (db : List (String × ScratchRec)) (req : ScratchReq α)
    (e : RespEnvelope α) (hv : req.jsonrpc = some "2.0")
    (he : ScratchAdvanced.handle_mcp db req = .envelope e) : e.id = req.id := by
  have hne : ¬ (req.jsonrpc ≠ some "2.0") := by simp [hv]
  unfold ScratchAdvanced.handle_mcp at he
  rw [if_neg hne] at he
  simp only [ScratchAdvanced.toolsCall] at he
  repeat' split at he
  all_goals first
    | (cases he; rfl)
    | cases he

/-- An `initialize` request used by the C2 witness. -/
def reqInit : ScratchReq Nat :=
  { jsonrpc := some "2.0", method := some "initialize", id := some 5 }

/-- Witness for C2: a concrete envelope-producing dispatch echoes id 5. -/
theorem claim_C2_witness :
    ScratchAdvanced.handle_mcp ([] : List (String × ScratchRec)) reqInit
      = .envelope ⟨some 5, .ok ScratchAdvanced.initializeResult⟩
    ∧ (⟨some 5, .ok ScratchAdvanced.initializeResult⟩ : RespEnvelope Nat).id = reqInit.id :=
  ⟨rfl, claim_C2 Nat [] reqInit ⟨some 5, .ok ScratchAdvanced.initializeResult⟩ rfl rfl⟩

/-- A two-line-log database entry whose streaming succeeds. -/
def dbStream : List (String × ScratchRec) :=
  [("PX", { name := "X protein", organism := "Test", function := "testing",
            log := some "line one\nline two" })]

/-- A valid `tools/call` request for `analyze_protein_stream` with id 7. -/
def reqStream : ScratchReq Nat :=
  { jsonrpc := some "2.0", method := some "tools/call", id := some 7,
    params := some { name := some "analyze_protein_stream",
                     arguments := some { protein_id := some "PX" } } }

/-- Counterexample to C2 as stated: a valid request (version `2.0`, known
method `tools/call`, id 7) whose response is the raw progress stream — no
response envelope carries the id in that branch. -/
theorem claim_C2_counterexample :
    reqStream.jsonrpc = some "2.0"
    ∧ reqStream.method = some "tools/call"
    ∧ reqStream.id = some 7
    ∧ ScratchAdvanced.handle_mcp dbStream reqStream
        = .stream [⟨1, 2, "line one"⟩, ⟨2, 2, "line two"⟩]
    ∧ (ScratchAdvanced.handle_mcp dbStream reqStream).isEnvelope = false :=
  ⟨rfl, rfl, rfl, rfl, rfl⟩

/-- Claim C3 (amended): a protocol-version mismatch is rejected with
`-32600` and `id: None` regardless of the request's id; an empty method name
with a valid version instead falls through to `-32601` method-not-found,
which does echo the request's id. -/
theorem claim_C3 :
    (∀ (α : Type) (db : List (String × ScratchRec)) (req : ScratchReq α),
      req.jsonrpc ≠ some "2.0" →
      ScratchAdvanced.handle_mcp db req
        = .envelope ⟨none, .error ⟨-32600, "Invalid Request"⟩⟩)
    ∧ (∀ (α : Type) (db : List (String × ScratchRec)) (req : ScratchReq α),
      req.jsonrpc = some "2.0" → req.method = some "" →
      ScratchAdvanced.handle_mcp db req
        = .envelope ⟨req.id, .error ⟨-32601, "Method not found"⟩⟩) := by
  constructor
  · intro α db req h
    unfold ScratchAdvanced.handle_mcp
    rw [if_pos h]
  · intro α db req hv hm
    exact advHandle_unknown α db req "" hv hm (by decide)

/-- A request with an unsupported version and a present id. -/
def reqBadVersion : ScratchReq Nat :=
  { jsonrpc := some "1.0", method := some "initialize", id := some 7 }

/-- Counterexample to C3 as stated: the version-mismatch error carries
`id: None` even though the request's id is 7, and an empty method (valid
version) yields `-32601`, not `-32600`. -/
theorem claim_C3_counterexample :
    ScratchAdvanced.handle_mcp ([] : List (String × ScratchRec)) reqBadVersion
      = .envelope ⟨none, .error ⟨-32600, "Invalid Request"⟩⟩
    ∧ reqBadVersion.id = some 7
    ∧ (none : Option Nat) ≠ some 7
    ∧ ScratchAdvanced.handle_mcp ([] : List (String × ScratchRec))
        ({ jsonrpc := some "2.0", method := some "", id := some 8 } : ScratchReq Nat)
      = .envelope ⟨some 8, .error ⟨-32601, "Method not found"⟩⟩ :=
  ⟨rfl, rfl, by decide, rfl⟩

/-- A request with no `jsonrpc` field at all. -/
def reqNoVersion : ScratchReq Nat := { method := some "initialize", id := some 2 }

/-- Witness for C3 (amended) at concrete requests. -/
theorem claim_C3_witness :
    ScratchAdvanced.handle_mcp ([] : List (String × ScratchRec)) reqNoVersion
      = .envelope ⟨none, .error ⟨-32600, "Invalid Request"⟩⟩
    ∧ ScratchAdvanced.handle_mcp ([] : List (String × ScratchRec))
        ({ jsonrpc := some "2.0", method := some "", id := some 4 } : ScratchReq Nat)
      = .envelope ⟨some 4, .error ⟨-32601, "Method not found"⟩⟩ :=
  ⟨claim_C3.1 Nat [] reqNoVersion (by decide),
   claim_C3.2 Nat [] ({ jsonrpc := some "2.0", method := some "", id := some 4 } :
     ScratchReq Nat) rfl rfl⟩

/-- Claim C4 (amended): the SDK streaming tool `stream_analysis_log`, over
any known protein whose log has `N` lines, emits exactly `N` progress
notifications with sequence numbers exactly `1..N`, a constant total `N`, and
the messages are the lines in order; the final return value — the newline
join of all `N` lines — appears on the wire strictly after the last progress
notification. -/
theorem claim_C4 (db : List (String × ProteinRec)) (pid : String) (r : ProteinRec)
    (h : dictGet db pid = some r) :
    stream_analysis_log db pid
      = .ok ((progressEvents (logLines r).length 1 (logLines r)).map StreamItem.progressEv
          ++ [StreamItem.finalRes (String.intercalate "\n" (logLines r))])
    ∧ (progressEvents (logLines r).length 1 (logLines r)).length = (logLines r).length
    ∧ (progressEvents (logLines r).length 1 (logLines r)).map Progress.progress
        = List.range' 1 (logLines r).length
    ∧ (∀ e ∈ progressEvents (logLines r).length 1 (logLines r),
        e.total = (logLines r).length)
    ∧ (progressEvents (logLines r).length 1 (logLines r)).map Progress.message
        = logLines r := by
  refine ⟨?_, progressEvents_length _ _ _, progressEvents_map_progress _ _ _,
    progressEvents_total _ _ _, progressEvents_map_message _ _ _⟩
  simp [stream_analysis_log, h]

/-- Witness for C4: the spec's 12-line scenario — a record with no stored log
gets the twelve default lines. -/
theorem claim_C4_witness :
    (logLines p53Rec).length = 12
    ∧ (stream_analysis_log dbW "P53_HUMAN"
        = .ok ((progressEvents (logLines p53Rec).length 1 (logLines p53Rec)).map
              StreamItem.progressEv
            ++ [StreamItem.finalRes (String.intercalate "\n" (logLines p53Rec))])
      ∧ (progressEvents (logLines p53Rec).length 1 (logLines p53Rec)).length
          = (logLines p53Rec).length
      ∧ (progressEvents (logLines p53Rec).length 1 (logLines p53Rec)).map Progress.progress
          = List.range' 1 (logLines p53Rec).length
      ∧ (∀ e ∈ progressEvents (logLines p53Rec).length 1 (logLines p53Rec),
          e.total = (logLines p53Rec).length)
      ∧ (progressEvents (logLines p53Rec).length 1 (logLines p53Rec)).map Progress.message
          = logLines p53Rec) :=
  ⟨rfl, claim_C4 dbW "P53_HUMAN" p53Rec rfl⟩

/-- A database entry with no `log` field for the scratch streaming tool. -/
def dbNoLog : List (String × ScratchRec) :=
  [("PY", { name := "Y protein", organism := "Test", function := "testing" })]

/-- A valid `tools/call` request streaming the log-less protein. -/
def reqStreamNoLog : ScratchReq Nat :=
  { jsonrpc := some "2.0", method := some "tools/call", id := some 9,
    params := some { name := some "analyze_protein_stream",
                     arguments := some { protein_id := some "PY" } } }

/-- Counterexample to C4 as stated: the scratch server's streaming tool skips
blank lines, so over the 1-line log `[""]` (a record with no `log` field) it
emits 0 progress notifications, not 1 — and its chunks carry a progress
fraction and no final concatenated result at all. -/
theorem claim_C4_counterexample :
    ScratchAdvanced.handle_mcp dbNoLog reqStreamNoLog = .stream []
    ∧ generate_stream "" = []
    ∧ (splitNl "").length = 1 :=
  ⟨rfl, rfl, rfl⟩

end MCPWorkshop
